import Mathlib

/-
Verification of the CivicLens complaint-triage core against its design
document.

Convention: Python float literals and float arithmetic are modelled as
exact rationals (ℚ); Python's built-in `round` is round-half-to-even;
Python's `str.lower` is modelled as ASCII lowering (every string the
pipeline compares against is ASCII).  Database tables are modelled as
lists of records, and an ORM query that runs after an in-session
mutation sees that mutation (SQLAlchemy autoflush), i.e. queries read
the current list state.
-/

namespace CivicLens

/-- Python's built-in `round` (round half to even) on a rational. -/
def pyRound (q : ℚ) : ℤ :=
  if q - ⌊q⌋ < 1/2 then ⌊q⌋
  else if 1/2 < q - ⌊q⌋ then ⌊q⌋ + 1
  else if ⌊q⌋ % 2 = 0 then ⌊q⌋ else ⌊q⌋ + 1

/-- Python's `round(q, k)`: round to `k` decimal places. -/
def pyRoundTo (k : ℕ) (q : ℚ) : ℚ :=
  (pyRound (q * 10 ^ k) : ℚ) / 10 ^ k

/-- `strStarts needle hay`: `hay` begins with `needle`. -/
def strStarts : List Char → List Char → Bool
  | [], _ => true
  | _ :: _, [] => false
  | a :: as, b :: bs => a == b && strStarts as bs

/-- `strContains hay needle`: Python's substring test `needle in hay`. -/
def strContains : List Char → List Char → Bool
  | [], needle => needle.isEmpty
  | c :: rest, needle => strStarts needle (c :: rest) || strContains rest needle

/-- Python `needle in hay` on strings. -/
def pyIn (needle hay : String) : Bool :=
  strContains hay.toList needle.toList

/-- Python `str.lower` (ASCII). -/
def pyLower (s : String) : String := ⟨s.toList.map Char.toLower⟩

/-! ## AIService (src/backend/app/services/ai_service.py) -/

/-- `self.categories` of `AIService.__init__`. -/
def categories : List String :=
  ["roads", "water", "sanitation", "safety", "electricity",
   "public_transport", "environment", "other"]

/-- `self.urgency_keywords['critical']`. -/
def urgency_keywords_critical : List String :=
  ["emergency", "urgent", "danger", "life threatening", "fire",
   "accident", "flood", "collapsed", "explosion", "gas leak",
   "electrocution", "drowning", "death", "injured"]

/-- `self.urgency_keywords['high']`. -/
def urgency_keywords_high : List String :=
  ["immediate", "severe", "major", "broken", "blocked",
   "overflow", "leakage", "exposure", "hazard", "risk",
   "children", "elderly", "disabled", "hospital", "school"]

/-- `self.urgency_keywords['medium']`. -/
def urgency_keywords_medium : List String :=
  ["damaged", "poor", "problem", "issue", "concern",
   "inconvenience", "delay", "irregular", "complaint"]

/-- `self.urgency_keywords['low']`. -/
def urgency_keywords_low : List String :=
  ["minor", "small", "slight", "cosmetic", "suggestion",
   "improvement", "future", "eventually"]

/-- `self.category_keywords`, in Python dict insertion order. -/
def category_keywords : List (String × List String) :=
  [("roads", ["road", "pothole", "street", "highway", "pavement", "sidewalk",
              "traffic", "signal", "footpath", "crossing", "bridge", "asphalt"]),
   ("water", ["water", "pipeline", "tap", "supply", "drinking", "tank",
              "bore", "well", "pump", "contaminated", "dirty water"]),
   ("sanitation", ["garbage", "waste", "sewage", "drain", "toilet", "trash",
                   "cleaning", "dustbin", "sweeping", "stench", "smell", "hygiene"]),
   ("safety", ["crime", "theft", "robbery", "harassment", "police", "security",
               "unsafe", "dark", "lighting", "cctv", "patrol", "violence"]),
   ("electricity", ["power", "electric", "outage", "blackout", "transformer",
                    "wire", "cable", "meter", "voltage", "short circuit", "pole"]),
   ("public_transport", ["bus", "metro", "train", "transport", "station", "stop",
                         "schedule", "route", "ticket", "fare", "overcrowded"]),
   ("environment", ["tree", "park", "pollution", "noise", "air quality", "green",
                    "garden", "plant", "animal", "stray", "mosquito", "pest"])]

/-- `sum(1 for kw in keywords if kw in text_lower)`. -/
def hits (keywords : List String) (text_lower : String) : ℕ :=
  keywords.countP (fun kw => pyIn kw text_lower)

/-- `AIService.classify_category`, the per-category positive scores
(`category_scores` dict, in insertion order). -/
def category_scores (text_lower : String) : List (String × ℕ) :=
  category_keywords.filterMap (fun p =>
    let score := hits p.2 text_lower
    if 0 < score then some (p.1, score) else none)

/-- `AIService.classify_category`.  `max(category_scores, key=category_scores.get)`
returns the first key attaining the maximum, modelled by the fold that
replaces the current best only on a strictly larger score. -/
def classify_category (text : String) : String × ℚ :=
  let text_lower := pyLower text
  let scores := category_scores text_lower
  match scores with
  | [] => ("other", 0.3)
  | s0 :: rest =>
      let best := rest.foldl (fun acc p => if acc.2 < p.2 then p else acc) s0
      let total : ℕ := (scores.map Prod.snd).sum
      let confidence : ℚ := if 0 < total then (best.2 : ℚ) / total else 0.5
      (best.1, min confidence 0.9)

/-- `AIService.calculate_keyword_urgency`. -/
def calculate_keyword_urgency (text : String) : ℚ :=
  let text_lower := pyLower text
  if urgency_keywords_critical.any (fun kw => pyIn kw text_lower) then 1
  else
    let critical_count := hits urgency_keywords_critical text_lower
    let high_count := hits urgency_keywords_high text_lower
    let medium_count := hits urgency_keywords_medium text_lower
    let low_count := hits urgency_keywords_low text_lower
    let score : ℚ := (critical_count : ℚ) * 1 + (high_count : ℚ) * 0.7
      + (medium_count : ℚ) * 0.4 + (low_count : ℚ) * 0.1
    let total : ℕ := critical_count + high_count + medium_count + low_count
    if 0 < total then min (score / (total : ℚ)) 1 else 0.3

/-- `AIService.calculate_location_importance` (placeholder constant). -/
def calculate_location_importance (_latitude _longitude : ℚ) : ℚ := 0.5

/-- `AIService.get_nearby_complaint_factor` (placeholder constant). -/
def get_nearby_complaint_factor (_latitude _longitude : ℚ) (_category : String) : ℚ := 0.3

/-- `SEVERITY_WEIGHTS` (config/settings.py); the in-code fallback defaults
in `calculate_severity_score` have the same four values. -/
def w_keyword_urgency : ℚ := 0.3

/-- `SEVERITY_WEIGHTS['nearby_complaints']`. -/
def w_nearby_complaints : ℚ := 0.2

/-- `SEVERITY_WEIGHTS['time_unresolved']`. -/
def w_time_unresolved : ℚ := 0.2

/-- `SEVERITY_WEIGHTS['location_importance']`. -/
def w_location_importance : ℚ := 0.3

/-- `AIService.calculate_severity_score`. -/
def calculate_severity_score (text : String) (category : String)
    (latitude longitude : ℚ) (time_unresolved_hours : ℚ) : ℚ :=
  let keyword_score := calculate_keyword_urgency text
  let location_score := calculate_location_importance latitude longitude
  let nearby_score := get_nearby_complaint_factor latitude longitude category
  let time_factor := min (time_unresolved_hours / 168) 1
  let severity := w_keyword_urgency * keyword_score
    + w_nearby_complaints * nearby_score
    + w_time_unresolved * time_factor
    + w_location_importance * location_score
  pyRoundTo 3 (min severity 1)

/-- `AIService.get_priority_from_score`. -/
def get_priority_from_score (severity_score : ℚ) : String :=
  if 0.8 ≤ severity_score then "critical"
  else if 0.6 ≤ severity_score then "high"
  else if 0.4 ≤ severity_score then "medium"
  else "low"

/-- Result record of `AIService.process_complaint`. -/
structure ProcessResult where
  category : String
  ai_category : String
  confidence : ℚ
  severity_score : ℚ
  priority : String
  deriving DecidableEq

/-- `AIService.process_complaint` (submission-time entry point:
`time_unresolved_hours` keeps its default 0). -/
def process_complaint (text : String) (category : Option String)
    (latitude longitude : ℚ) : ProcessResult :=
  let ac := classify_category text
  let final_category :=
    match category with
    | some c => if c ∈ categories then c else ac.1
    | none => ac.1
  let severity_score := calculate_severity_score text final_category latitude longitude 0
  let priority := get_priority_from_score severity_score
  { category := final_category
    ai_category := ac.1
    confidence := pyRoundTo 3 ac.2
    severity_score := severity_score
    priority := priority }

/-! ## Data model (src/backend/app/models/models.py)

Timestamps are modelled in hours (the code converts second differences to
hours before every comparison).  A table is a list of rows. -/

/-- The `Complaint` row, restricted to the fields the triage core reads
or writes. -/
structure Complaint where
  id : ℕ
  category : String
  status : String
  priority : String
  severity_score : ℚ
  latitude : ℚ
  longitude : ℚ
  created_at : ℚ
  escalated_at : Option ℚ
  escalation_level : ℕ
  is_duplicate : Bool
  duplicate_of_id : Option ℕ
  officer_id : Option ℕ
  department : Option String
  deriving DecidableEq

/-- The `User` row, restricted to the fields assignment reads. -/
structure User where
  id : ℕ
  role : String
  department : Option String
  is_active : Bool
  deriving DecidableEq

/-! ## ComplaintService (src/backend/app/services/complaint_service.py) -/

/-- `thresholds.get(complaint.priority, 72)` of `check_escalation`. -/
def escalation_threshold (priority : String) : ℚ :=
  if priority = "critical" then 4
  else if priority = "high" then 24
  else if priority = "medium" then 72
  else if priority = "low" then 168
  else 72

/-- `ComplaintService.check_escalation`, with `datetime.utcnow()` passed in
as `now`; returns the boolean result together with the updated row. -/
def check_escalation (now : ℚ) (c : Complaint) : Bool × Complaint :=
  if c.status = "resolved" ∨ c.status = "closed" then (false, c)
  else
    let threshold_hours := escalation_threshold c.priority
    let hours_pending := now - c.created_at
    if hours_pending > threshold_hours ∧ c.escalation_level = 0 then
      (true, { c with escalation_level := 1, escalated_at := some now })
    else if hours_pending > threshold_hours * 2 ∧ c.escalation_level = 1 then
      (true, { c with escalation_level := 2 })
    else
      (false, c)

/-- `Complaint.status.in_(['pending', 'in_progress'])`. -/
def is_open_status (c : Complaint) : Bool :=
  decide (c.status = "pending") || decide (c.status = "in_progress")

/-- One iteration of the `run_escalation_check` loop: complaints outside the
pending/in-progress filter are left untouched. -/
def escalation_step (now : ℚ) (c : Complaint) : Bool × Complaint :=
  if is_open_status c then check_escalation now c else (false, c)

/-- `ComplaintService.run_escalation_check`: number of escalated complaints
together with the post-run table. -/
def run_escalation_check (now : ℚ) (cs : List Complaint) : ℕ × List Complaint :=
  ((cs.map (escalation_step now)).countP (·.1),
   (cs.map (escalation_step now)).map (·.2))

/-- The `pending_count` query of `auto_assign_complaint`: open complaints
assigned to the given officer. -/
def open_load (complaints : List Complaint) (officer_id : ℕ) : ℕ :=
  complaints.countP (fun c =>
    decide (c.officer_id = some officer_id) && is_open_status c)

/-- The officer query of `auto_assign_complaint`:
`role='officer', department=department, is_active=True`. -/
def department_officers (users : List User) (d : String) : List User :=
  users.filter (fun u =>
    decide (u.role = "officer") && decide (u.department = some d) && u.is_active)

/-- The selection loop of `auto_assign_complaint`: `min_load` starts at
`float('inf')`, so the first officer always replaces the empty state, and a
later officer replaces the current one only on a strictly smaller load. -/
def select_officer (complaints : List Complaint) (officers : List User) :
    Option (User × ℕ) :=
  officers.foldl (fun acc u =>
    match acc with
    | none => some (u, open_load complaints u.id)
    | some su =>
        if open_load complaints u.id < su.2 then some (u, open_load complaints u.id)
        else some su) none

/-- `ComplaintService.auto_assign_complaint`.  `if not department` is Python
falsiness: a missing or empty department string aborts the assignment. -/
def auto_assign_complaint (users : List User) (complaints : List Complaint)
    (c : Complaint) : Option User × Complaint :=
  match c.department with
  | none => (none, c)
  | some d =>
      if d = "" then (none, c)
      else
        match select_officer complaints (department_officers users d) with
        | some su => (some su.1, { c with officer_id := some su.1.id })
        | none => (none, c)

/-- `ComplaintService.mark_as_duplicate` over the complaint table, the two
ORM arguments identified by their primary keys.  The `duplicate_count`
query runs after `complaint.duplicate_of_id` has been set, so (session
autoflush) it counts the just-linked duplicate as well. -/
def mark_as_duplicate (db : List Complaint) (complaint_id original_id : ℕ) :
    Bool × List Complaint :=
  if complaint_id = original_id then (false, db)
  else
    let db1 := db.map (fun c =>
      if c.id = complaint_id then
        { c with is_duplicate := true, duplicate_of_id := some original_id }
      else c)
    let duplicate_count := db1.countP (fun c => decide (c.duplicate_of_id = some original_id))
    if 0 < duplicate_count then
      let boost : ℚ := min ((duplicate_count : ℚ) * 0.1) 0.3
      (true, db1.map (fun c =>
        if c.id = original_id then
          { c with severity_score := min (c.severity_score + boost) 1 }
        else c))
    else (true, db1)

/-! ## Hotspot clustering (src/backend/app/api/analytics.py, `get_hotspots`) -/

/-- Per-cell accumulator (the `clusters[key]` dict). -/
structure ClusterAcc where
  lat : ℚ
  lng : ℚ
  count : ℕ
  sev_sum : ℚ
  cat_counts : List (String × ℕ)
  deriving DecidableEq

/-- One finalized hotspot entry. -/
structure Hotspot where
  lat : ℚ
  lng : ℚ
  count : ℕ
  avg_severity : ℚ
  top_category : Option String
  deriving DecidableEq

/-- `grid_size = 0.01` of `get_hotspots`. -/
def hotspot_grid_size : ℚ := 0.01

/-- `round(value / grid_size) * grid_size` for both coordinates: the cell a
complaint is snapped to. -/
def grid_key (c : Complaint) : ℚ × ℚ :=
  ((pyRound (c.latitude / hotspot_grid_size) : ℚ) * hotspot_grid_size,
   (pyRound (c.longitude / hotspot_grid_size) : ℚ) * hotspot_grid_size)

/-- `clusters[key]['categories'][c.category] += 1` on the insertion-ordered
category dict. -/
def bump_category (cat : String) : List (String × ℕ) → List (String × ℕ)
  | [] => [(cat, 1)]
  | p :: rest =>
      if p.1 = cat then (p.1, p.2 + 1) :: rest
      else p :: bump_category cat rest

/-- One iteration of the clustering loop, on the insertion-ordered
cluster dict. -/
def add_complaint (c : Complaint) :
    List ((ℚ × ℚ) × ClusterAcc) → List ((ℚ × ℚ) × ClusterAcc)
  | [] => [(grid_key c,
      { lat := (grid_key c).1, lng := (grid_key c).2, count := 1,
        sev_sum := c.severity_score, cat_counts := [(c.category, 1)] })]
  | p :: rest =>
      if p.1 = grid_key c then
        (p.1, { p.2 with
                count := p.2.count + 1,
                sev_sum := p.2.sev_sum + c.severity_score,
                cat_counts := bump_category c.category p.2.cat_counts }) :: rest
      else p :: add_complaint c rest

/-- The clustering loop of `get_hotspots`. -/
def build_clusters (cs : List Complaint) : List ((ℚ × ℚ) × ClusterAcc) :=
  cs.foldl (fun acc c => add_complaint c acc) []

/-- Finalization of one cluster: mean severity rounded to 2 decimals and the
dominant category (`max(categories, key=categories.get)`, first key wins). -/
def finalize_cluster (p : (ℚ × ℚ) × ClusterAcc) : Hotspot :=
  { lat := p.2.lat, lng := p.2.lng, count := p.2.count,
    avg_severity := pyRoundTo 2 (p.2.sev_sum / (p.2.count : ℚ)),
    top_category :=
      match p.2.cat_counts with
      | [] => none
      | q :: rest => some ((rest.foldl (fun a r => if a.2 < r.2 then r else a) q).1) }

/-- `get_hotspots` from the fetched complaint list onward: cluster, finalize,
sort by descending count (Python's stable sort with `reverse=True`), and cap
to the first 50 entries. -/
def get_hotspots (cs : List Complaint) : List Hotspot :=
  (((build_clusters cs).map finalize_cluster).mergeSort
      (fun a b => decide (b.count ≤ a.count))).take 50

/-! ## Reference definitions and helpers for the verification -/

/-- Reference definition of the urgency scorer, transcribed from the design
document's wording (§4.2): critical short-circuit to 1.0, otherwise the
weighted sum over tier hit counts divided by the total hit count (no explicit
clamp), default 0.30 on zero hits. -/
def keyword_urgency_ref (text : String) : ℚ :=
  let text_lower := pyLower text
  if urgency_keywords_critical.any (fun kw => pyIn kw text_lower) then 1
  else
    let critical_count := hits urgency_keywords_critical text_lower
    let high_count := hits urgency_keywords_high text_lower
    let medium_count := hits urgency_keywords_medium text_lower
    let low_count := hits urgency_keywords_low text_lower
    let score : ℚ := (critical_count : ℚ) * 1 + (high_count : ℚ) * 0.7
      + (medium_count : ℚ) * 0.4 + (low_count : ℚ) * 0.1
    let total : ℕ := critical_count + high_count + medium_count + low_count
    if 0 < total then score / (total : ℚ) else 0.3

/-- Rank of a priority tier, for stating monotonicity of the mapping. -/
def priority_rank (p : String) : ℕ :=
  if p = "critical" then 3
  else if p = "high" then 2
  else if p = "medium" then 1
  else 0

lemma weighted_score_le_total (c h m l : ℕ) :
    (c : ℚ) * 1 + (h : ℚ) * 0.7 + (m : ℚ) * 0.4 + (l : ℚ) * 0.1
      ≤ (c : ℚ) + (h : ℚ) + (m : ℚ) + (l : ℚ) := by
  have hh : (0:ℚ) ≤ (h : ℚ) := Nat.cast_nonneg h
  have hm : (0:ℚ) ≤ (m : ℚ) := Nat.cast_nonneg m
  have hl : (0:ℚ) ≤ (l : ℚ) := Nat.cast_nonneg l
  linarith

lemma tenth_total_le_weighted_score (c h m l : ℕ) :
    (0.1 : ℚ) * ((c : ℚ) + (h : ℚ) + (m : ℚ) + (l : ℚ))
      ≤ (c : ℚ) * 1 + (h : ℚ) * 0.7 + (m : ℚ) * 0.4 + (l : ℚ) * 0.1 := by
  have hc : (0:ℚ) ≤ (c : ℚ) := Nat.cast_nonneg c
  have hh : (0:ℚ) ≤ (h : ℚ) := Nat.cast_nonneg h
  have hm : (0:ℚ) ≤ (m : ℚ) := Nat.cast_nonneg m
  linarith

/-- The pick-first-max fold (Python `max(d, key=d.get)`) returns an element
of the candidate list. -/
lemma foldl_max_mem {α : Type} (f : α → ℕ) :
    ∀ (l : List α) (a : α),
      l.foldl (fun acc p => if f acc < f p then p else acc) a ∈ a :: l := by
  intro l
  induction l with
  | nil => intro a; simp
  | cons b t ih =>
      intro a
      simp only [List.foldl_cons]
      by_cases h : f a < f b
      · rw [if_pos h]
        exact List.mem_cons_of_mem a (ih b)
      · rw [if_neg h]
        rcases List.mem_cons.mp (ih a) with h' | h'
        · rw [h']
          exact List.mem_cons_self a _
        · exact List.mem_cons_of_mem a (List.mem_cons_of_mem b h')

/-- The pick-first-max fold returns an element with maximal measure. -/
lemma foldl_max_ge {α : Type} (f : α → ℕ) :
    ∀ (l : List α) (a : α) (q : α), q ∈ a :: l →
      f q ≤ f (l.foldl (fun acc p => if f acc < f p then p else acc) a) := by
  intro l
  induction l with
  | nil =>
      intro a q hq
      rw [List.mem_singleton.mp hq]
      simp
  | cons b t ih =>
      intro a q hq
      simp only [List.foldl_cons]
      by_cases h : f a < f b
      · rw [if_pos h]
        rcases List.mem_cons.mp hq with h' | h'
        · exact h' ▸ le_trans h.le (ih b b (List.mem_cons_self b t))
        · exact ih b q h'
      · rw [if_neg h]
        rcases List.mem_cons.mp hq with h' | h'
        · exact h' ▸ ih a a (List.mem_cons_self a t)
        · rcases List.mem_cons.mp h' with h'' | h''
          · exact h'' ▸ le_trans (not_lt.mp h) (ih a a (List.mem_cons_self a t))
          · exact ih a q (List.mem_cons_of_mem a h'')

/-- Every entry of the positive-score table is keyed by one of the seven
configured categories. -/
lemma category_scores_key (tl : String) (p : String × ℕ)
    (hp : p ∈ category_scores tl) : p.1 ∈ category_keywords.map Prod.fst := by
  obtain ⟨a, ha, hfa⟩ := List.mem_filterMap.mp hp
  dsimp only at hfa
  split_ifs at hfa with h
  cases hfa
  exact List.mem_map_of_mem Prod.fst ha

/-- Every entry of the positive-score table has a positive count. -/
lemma category_scores_pos (tl : String) (p : String × ℕ)
    (hp : p ∈ category_scores tl) : 0 < p.2 := by
  obtain ⟨a, ha, hfa⟩ := List.mem_filterMap.mp hp
  dsimp only at hfa
  split_ifs at hfa with h
  cases hfa
  exact h

/-- The urgency scorer never exceeds 1. -/
lemma calculate_keyword_urgency_le_one (text : String) :
    calculate_keyword_urgency text ≤ 1 := by
  unfold calculate_keyword_urgency
  dsimp only
  split_ifs with h1 h2
  · exact le_refl 1
  · exact min_le_right _ _
  · norm_num

/-- The urgency scorer never goes below the minimal tier weight 0.1. -/
lemma tenth_le_calculate_keyword_urgency (text : String) :
    (0.1 : ℚ) ≤ calculate_keyword_urgency text := by
  unfold calculate_keyword_urgency
  dsimp only
  split_ifs with h1 h2
  · norm_num
  · refine le_min ?_ (by norm_num)
    rw [le_div_iff₀ (by exact_mod_cast h2)]
    push_cast
    exact tenth_total_le_weighted_score _ _ _ _
  · norm_num

/-- `priority_rank` of the mapped score, as a numeric step function. -/
lemma priority_rank_from_score (s : ℚ) :
    priority_rank (get_priority_from_score s)
      = if 0.8 ≤ s then 3 else if 0.6 ≤ s then 2 else if 0.4 ≤ s then 1 else 0 := by
  unfold get_priority_from_score
  split_ifs with h1 h2 h3 <;> simp [priority_rank]

lemma pyRound_ge_floor (q : ℚ) : ⌊q⌋ ≤ pyRound q := by
  unfold pyRound
  split_ifs <;> omega

lemma pyRound_le_ceil (q : ℚ) : pyRound q ≤ ⌈q⌉ := by
  unfold pyRound
  split_ifs with h1 h2 h3
  · exact Int.floor_le_ceil q
  · have hq : (⌊q⌋ : ℚ) < q := by linarith
    have := Int.lt_ceil.mpr hq
    omega
  · exact Int.floor_le_ceil q
  · have hq : (⌊q⌋ : ℚ) < q := by linarith
    have := Int.lt_ceil.mpr hq
    omega

lemma pyRoundTo_le_of_le (k : ℕ) (q : ℚ) (B : ℤ) (h : q * 10 ^ k ≤ (B : ℚ)) :
    pyRoundTo k q ≤ (B : ℚ) / 10 ^ k := by
  unfold pyRoundTo
  have h10 : (0:ℚ) < 10 ^ k := by positivity
  have hint : (pyRound (q * 10 ^ k) : ℚ) ≤ (B : ℚ) := by
    exact_mod_cast le_trans (pyRound_le_ceil _) (Int.ceil_le.mpr h)
  exact div_le_div_of_nonneg_right hint h10.le

lemma le_pyRoundTo_of_le (k : ℕ) (q : ℚ) (A : ℤ) (h : (A : ℚ) ≤ q * 10 ^ k) :
    (A : ℚ) / 10 ^ k ≤ pyRoundTo k q := by
  unfold pyRoundTo
  have h10 : (0:ℚ) < 10 ^ k := by positivity
  have hint : (A : ℚ) ≤ (pyRound (q * 10 ^ k) : ℚ) := by
    exact_mod_cast le_trans (Int.le_floor.mpr h) (pyRound_ge_floor _)
  exact div_le_div_of_nonneg_right hint h10.le

/-- Test fixture: an open critical-priority complaint created at time 0. -/
def sampleCritical : Complaint :=
  { id := 1, category := "roads", status := "pending", priority := "critical",
    severity_score := 1, latitude := 0, longitude := 0, created_at := 0,
    escalated_at := none, escalation_level := 0, is_duplicate := false,
    duplicate_of_id := none, officer_id := none, department := none }

lemma check_escalation_terminal (now : ℚ) (c : Complaint)
    (h : c.status = "resolved" ∨ c.status = "closed") :
    check_escalation now c = (false, c) := by
  unfold check_escalation
  rw [if_pos h]

lemma check_escalation_lvl0_fire (now : ℚ) (c : Complaint)
    (hterm : ¬(c.status = "resolved" ∨ c.status = "closed"))
    (h0 : c.escalation_level = 0)
    (hh : now - c.created_at > escalation_threshold c.priority) :
    check_escalation now c
      = (true, { c with escalation_level := 1, escalated_at := some now }) := by
  unfold check_escalation
  rw [if_neg hterm]
  dsimp only
  rw [if_pos ⟨hh, h0⟩]

lemma check_escalation_lvl0_idle (now : ℚ) (c : Complaint)
    (hterm : ¬(c.status = "resolved" ∨ c.status = "closed"))
    (h0 : c.escalation_level = 0)
    (hh : ¬ now - c.created_at > escalation_threshold c.priority) :
    check_escalation now c = (false, c) := by
  unfold check_escalation
  rw [if_neg hterm]
  dsimp only
  rw [if_neg (fun hc => hh hc.1), if_neg (fun hc => absurd hc.2 (by omega))]

lemma check_escalation_lvl1_fire (now : ℚ) (c : Complaint)
    (hterm : ¬(c.status = "resolved" ∨ c.status = "closed"))
    (h1 : c.escalation_level = 1)
    (hh : now - c.created_at > escalation_threshold c.priority * 2) :
    check_escalation now c = (true, { c with escalation_level := 2 }) := by
  unfold check_escalation
  rw [if_neg hterm]
  dsimp only
  rw [if_neg (fun hc => absurd hc.2 (by omega)), if_pos ⟨hh, h1⟩]

lemma check_escalation_lvl1_idle (now : ℚ) (c : Complaint)
    (hterm : ¬(c.status = "resolved" ∨ c.status = "closed"))
    (h1 : c.escalation_level = 1)
    (hh : ¬ now - c.created_at > escalation_threshold c.priority * 2) :
    check_escalation now c = (false, c) := by
  unfold check_escalation
  rw [if_neg hterm]
  dsimp only
  rw [if_neg (fun hc => absurd hc.2 (by omega)), if_neg (fun hc => hh hc.1)]

lemma check_escalation_lvl_other (now : ℚ) (c : Complaint)
    (hterm : ¬(c.status = "resolved" ∨ c.status = "closed"))
    (h : c.escalation_level ≠ 0 ∧ c.escalation_level ≠ 1) :
    check_escalation now c = (false, c) := by
  unfold check_escalation
  rw [if_neg hterm]
  dsimp only
  rw [if_neg (fun hc => h.1 hc.2), if_neg (fun hc => h.2 hc.2)]

lemma check_escalation_keeps_status (now : ℚ) (c : Complaint) :
    ((check_escalation now c).2).status = c.status := by
  unfold check_escalation
  dsimp only
  split_ifs <;> rfl

/-- Applying `check_escalation` a third time at the same instant is a no-op:
after two applications every complaint has exhausted its qualifying
transitions. -/
lemma check_escalation_third (now : ℚ) (c : Complaint) :
    check_escalation now ((check_escalation now ((check_escalation now c).2)).2)
      = (false, (check_escalation now ((check_escalation now c).2)).2) := by
  by_cases hterm : c.status = "resolved" ∨ c.status = "closed"
  · rw [check_escalation_terminal now c hterm]
    dsimp only
    rw [check_escalation_terminal now c hterm]
    dsimp only
    exact check_escalation_terminal now c hterm
  · by_cases h0 : c.escalation_level = 0
    · by_cases hh : now - c.created_at > escalation_threshold c.priority
      · rw [check_escalation_lvl0_fire now c hterm h0 hh]
        dsimp only
        set c1 : Complaint := { c with escalation_level := 1, escalated_at := some now } with hc1
        have hterm1 : ¬(c1.status = "resolved" ∨ c1.status = "closed") := hterm
        have h11 : c1.escalation_level = 1 := rfl
        by_cases hh2 : now - c1.created_at > escalation_threshold c1.priority * 2
        · rw [check_escalation_lvl1_fire now c1 hterm1 h11 hh2]
          dsimp only
          exact check_escalation_lvl_other now _ hterm1 ⟨by show (2:ℕ) ≠ 0; omega, by show (2:ℕ) ≠ 1; omega⟩
        · rw [check_escalation_lvl1_idle now c1 hterm1 h11 hh2]
          dsimp only
          exact check_escalation_lvl1_idle now c1 hterm1 h11 hh2
      · rw [check_escalation_lvl0_idle now c hterm h0 hh]
        dsimp only
        rw [check_escalation_lvl0_idle now c hterm h0 hh]
        dsimp only
        exact check_escalation_lvl0_idle now c hterm h0 hh
    · by_cases h1 : c.escalation_level = 1
      · by_cases hh2 : now - c.created_at > escalation_threshold c.priority * 2
        · rw [check_escalation_lvl1_fire now c hterm h1 hh2]
          dsimp only
          set c2 : Complaint := { c with escalation_level := 2 } with hc2
          have hterm2 : ¬(c2.status = "resolved" ∨ c2.status = "closed") := hterm
          rw [check_escalation_lvl_other now c2 hterm2 ⟨by show (2:ℕ) ≠ 0; omega, by show (2:ℕ) ≠ 1; omega⟩]
          dsimp only
          exact check_escalation_lvl_other now c2 hterm2 ⟨by show (2:ℕ) ≠ 0; omega, by show (2:ℕ) ≠ 1; omega⟩
        · rw [check_escalation_lvl1_idle now c hterm h1 hh2]
          dsimp only
          rw [check_escalation_lvl1_idle now c hterm h1 hh2]
          dsimp only
          exact check_escalation_lvl1_idle now c hterm h1 hh2
      · rw [check_escalation_lvl_other now c hterm ⟨h0, h1⟩]
        dsimp only
        rw [check_escalation_lvl_other now c hterm ⟨h0, h1⟩]
        dsimp only
        exact check_escalation_lvl_other now c hterm ⟨h0, h1⟩

lemma escalation_step_eq_of_open (now : ℚ) (c : Complaint)
    (h : is_open_status c = true) :
    escalation_step now c = check_escalation now c := by
  unfold escalation_step
  rw [if_pos h]

lemma escalation_step_eq_of_closed (now : ℚ) (c : Complaint)
    (h : is_open_status c = false) :
    escalation_step now c = (false, c) := by
  unfold escalation_step
  rw [h]
  rfl

lemma is_open_status_check (now : ℚ) (c : Complaint) :
    is_open_status (check_escalation now c).2 = is_open_status c := by
  unfold is_open_status
  rw [check_escalation_keeps_status]

/-- Third application of the per-complaint driver step is a no-op. -/
lemma escalation_step_stable (now : ℚ) (c : Complaint) :
    escalation_step now ((escalation_step now ((escalation_step now c).2)).2)
      = (false, (escalation_step now ((escalation_step now c).2)).2) := by
  by_cases hopen : is_open_status c = true
  · rw [escalation_step_eq_of_open now c hopen]
    have ho1 : is_open_status (check_escalation now c).2 = true := by
      rw [is_open_status_check]; exact hopen
    rw [escalation_step_eq_of_open _ _ ho1]
    have ho2 : is_open_status (check_escalation now (check_escalation now c).2).2 = true := by
      rw [is_open_status_check, is_open_status_check]; exact hopen
    rw [escalation_step_eq_of_open _ _ ho2]
    exact check_escalation_third now c
  · have h' : is_open_status c = false := by
      revert hopen; cases is_open_status c <;> simp
    rw [escalation_step_eq_of_closed now c h']
    dsimp only
    rw [escalation_step_eq_of_closed now c h']
    dsimp only
    exact escalation_step_eq_of_closed now c h'

lemma select_officer_aux (complaints : List Complaint) :
    ∀ (os : List User) (u : User),
      ∃ w, os.foldl (fun acc v =>
          match acc with
          | none => some (v, open_load complaints v.id)
          | some su =>
              if open_load complaints v.id < su.2 then some (v, open_load complaints v.id)
              else some su) (some (u, open_load complaints u.id))
        = some (w, open_load complaints w.id) ∧
      w ∈ u :: os ∧
      (∀ v ∈ u :: os, open_load complaints w.id ≤ open_load complaints v.id) ∧
      (u :: os).find?
          (fun v => decide (open_load complaints v.id = open_load complaints w.id))
        = some w := by
  intro os
  induction os with
  | nil =>
      intro u
      refine ⟨u, rfl, List.mem_cons_self u [], ?_, ?_⟩
      · intro v hv
        rw [List.mem_singleton.mp hv]
      · rw [List.find?_cons_of_pos _ (by simp)]
  | cons b t ih =>
      intro u
      simp only [List.foldl_cons]
      by_cases hb : open_load complaints b.id < open_load complaints u.id
      · rw [if_pos hb]
        obtain ⟨w, hfold, hmem, hmin, hfind⟩ := ih b
        refine ⟨w, hfold, List.mem_cons_of_mem u hmem, ?_, ?_⟩
        · intro v hv
          rcases List.mem_cons.mp hv with h' | h'
          · have hwb : open_load complaints w.id ≤ open_load complaints b.id :=
              hmin b (List.mem_cons_self b t)
            rw [h']
            exact le_trans hwb hb.le
          · exact hmin v h'
        · have hne : open_load complaints u.id ≠ open_load complaints w.id := by
            have hwb : open_load complaints w.id ≤ open_load complaints b.id :=
              hmin b (List.mem_cons_self b t)
            omega
          rw [List.find?_cons_of_neg _ (by simpa using hne)]
          exact hfind
      · rw [if_neg hb]
        obtain ⟨w, hfold, hmem, hmin, hfind⟩ := ih u
        have hub : open_load complaints u.id ≤ open_load complaints b.id := not_lt.mp hb
        have hwu : open_load complaints w.id ≤ open_load complaints u.id :=
          hmin u (List.mem_cons_self u t)
        refine ⟨w, hfold, ?_, ?_, ?_⟩
        · rcases List.mem_cons.mp hmem with h' | h'
          · rw [h']
            exact List.mem_cons_self u _
          · exact List.mem_cons_of_mem u (List.mem_cons_of_mem b h')
        · intro v hv
          rcases List.mem_cons.mp hv with h' | h'
          · rw [h']
            exact hwu
          · rcases List.mem_cons.mp h' with h'' | h''
            · rw [h'']
              exact le_trans hwu hub
            · exact hmin v (List.mem_cons_of_mem u h'')
        · by_cases hq : open_load complaints u.id = open_load complaints w.id
          · rw [List.find?_cons_of_pos _ (by simpa using hq)]
            rw [List.find?_cons_of_pos _ (by simpa using hq)] at hfind
            exact hfind
          · have hbw : open_load complaints b.id ≠ open_load complaints w.id := by omega
            rw [List.find?_cons_of_neg _ (by simpa using hq),
              List.find?_cons_of_neg _ (by simpa using hbw)]
            rw [List.find?_cons_of_neg _ (by simpa using hq)] at hfind
            exact hfind

lemma select_officer_cons (complaints : List Complaint) (o : User) (os : List User) :
    select_officer complaints (o :: os)
      = os.foldl (fun acc v =>
          match acc with
          | none => some (v, open_load complaints v.id)
          | some su =>
              if open_load complaints v.id < su.2 then some (v, open_load complaints v.id)
              else some su) (some (o, open_load complaints o.id)) := by
  unfold select_officer
  rw [List.foldl_cons]

/-- The selection loop picks an officer of minimal open load, and among the
minimal-load officers the first one in iteration order. -/
lemma select_officer_spec (complaints : List Complaint) (officers : List User)
    (h : officers ≠ []) :
    ∃ u, select_officer complaints officers = some (u, open_load complaints u.id) ∧
      u ∈ officers ∧
      (∀ v ∈ officers, open_load complaints u.id ≤ open_load complaints v.id) ∧
      officers.find?
          (fun v => decide (open_load complaints v.id = open_load complaints u.id))
        = some u := by
  match officers, h with
  | o :: os, _ =>
      obtain ⟨w, hfold, hmem, hmin, hfind⟩ := select_officer_aux complaints os o
      exact ⟨w, (select_officer_cons complaints o os).trans hfold, hmem, hmin, hfind⟩

/-- Test fixtures for the assignment balancer: three active officers of one
department with open loads 3, 1, 1 in iteration order. -/
def sampleOfficer0 : User :=
  { id := 10, role := "officer", department := some "PWD", is_active := true }

/-- Second officer (open load 1). -/
def sampleOfficer1 : User :=
  { id := 11, role := "officer", department := some "PWD", is_active := true }

/-- Third officer (open load 1). -/
def sampleOfficer2 : User :=
  { id := 12, role := "officer", department := some "PWD", is_active := true }

/-- The three sample officers in iteration order. -/
def sampleUsers : List User := [sampleOfficer0, sampleOfficer1, sampleOfficer2]

/-- An open complaint assigned to the given officer. -/
def assignedOpen (i officer : ℕ) : Complaint :=
  { sampleCritical with id := 100 + i, officer_id := some officer }

/-- Complaint table giving officers 10/11/12 open loads 3/1/1. -/
def sampleLoadDb : List Complaint :=
  [assignedOpen 0 10, assignedOpen 1 10, assignedOpen 2 10,
   assignedOpen 3 11, assignedOpen 4 12]

/-- An unassigned complaint routed to the sample department. -/
def sampleTarget : Complaint := { sampleCritical with id := 99, department := some "PWD" }

/-- Test fixture: an original complaint with severity 0.5. -/
def dupOriginal : Complaint := { sampleCritical with id := 0, severity_score := 0.5 }

/-- Test fixture: a duplicate already linked to `dupOriginal`. -/
def dupFirst : Complaint :=
  { sampleCritical with id := 1, is_duplicate := true, duplicate_of_id := some 0 }

/-- Test fixture: a not-yet-linked complaint. -/
def dupSecond : Complaint := { sampleCritical with id := 2 }

/-- Test fixture: an original with severity 0, for cumulative-boost runs. -/
def cumulOriginal : Complaint := { sampleCritical with id := 0, severity_score := 0 }

/-- Test fixture: an unlinked complaint with severity 0 and the given id. -/
def cumulDup (i : ℕ) : Complaint := { sampleCritical with id := i, severity_score := 0 }

/-- After linking `dup` (present once and not yet pointing at `orig`), the
duplicate count seen by the query equals the prior count plus the link
itself. -/
lemma countP_after_link (dup orig : ℕ) :
    ∀ db : List Complaint, (∀ c ∈ db, c.id = dup → c.duplicate_of_id ≠ some orig) →
      (db.map (fun c => if c.id = dup
          then { c with is_duplicate := true, duplicate_of_id := some orig } else c)).countP
          (fun c => decide (c.duplicate_of_id = some orig))
        = db.countP (fun c => decide (c.duplicate_of_id = some orig))
          + db.countP (fun c => decide (c.id = dup)) := by
  intro db
  induction db with
  | nil => intro h; rfl
  | cons a t ih =>
      intro h
      simp only [List.map_cons, List.countP_cons]
      rw [ih (fun c hc => h c (List.mem_cons_of_mem a hc))]
      by_cases ha : a.id = dup
      · have hnd : a.duplicate_of_id ≠ some orig := h a (List.mem_cons_self a t) ha
        rw [if_pos ha]
        simp [ha, hnd]
        omega
      · rw [if_neg ha]
        simp [ha]
        split_ifs <;> omega

lemma run_escalation_check_nil (now : ℚ) : run_escalation_check now [] = (0, []) := rfl

lemma run_escalation_check_cons (now : ℚ) (c : Complaint) (cs : List Complaint) :
    run_escalation_check now (c :: cs)
      = ((run_escalation_check now cs).1 + (if (escalation_step now c).1 then 1 else 0),
         (escalation_step now c).2 :: (run_escalation_check now cs).2) := by
  unfold run_escalation_check
  simp [List.countP_cons]



/-- Count stored in the (first) cluster entry for a key, 0 when absent. -/
def acc_count (l : List ((ℚ × ℚ) × ClusterAcc)) (k : ℚ × ℚ) : ℕ :=
  ((l.find? (fun q => decide (q.1 = k))).map (fun q => q.2.count)).getD 0

/-- Severity sum stored in the (first) cluster entry for a key, 0 when absent. -/
def acc_sev (l : List ((ℚ × ℚ) × ClusterAcc)) (k : ℚ × ℚ) : ℚ :=
  ((l.find? (fun q => decide (q.1 = k))).map (fun q => q.2.sev_sum)).getD 0

lemma add_complaint_acc (c : Complaint) :
    ∀ (l : List ((ℚ × ℚ) × ClusterAcc)) (k : ℚ × ℚ),
      (acc_count (add_complaint c l) k
          = if k = grid_key c then acc_count l k + 1 else acc_count l k) ∧
      (acc_sev (add_complaint c l) k
          = if k = grid_key c then acc_sev l k + c.severity_score else acc_sev l k) := by
  intro l
  induction l with
  | nil =>
      intro k
      by_cases hk : k = grid_key c
      · subst hk
        simp [acc_count, acc_sev, add_complaint]
      · have hk2 : ¬ (grid_key c = k) := fun h => hk h.symm
        constructor <;>
          simp [acc_count, acc_sev, add_complaint, List.find?_cons, hk, hk2]
  | cons q rest ih =>
      intro k
      unfold add_complaint
      by_cases hq : q.1 = grid_key c
      · rw [if_pos hq]
        by_cases hk : k = q.1
        · subst hk
          simp [acc_count, acc_sev, List.find?_cons, hq]
        · have hk' : ¬ k = grid_key c := fun h => hk (h.trans hq.symm)
          have hk2 : ¬ (q.1 = k) := fun h => hk h.symm
          constructor <;>
            simp [acc_count, acc_sev, List.find?_cons, hk, hk2, hk']
      · rw [if_neg hq]
        by_cases hk : k = q.1
        · subst hk
          constructor <;>
            simp [acc_count, acc_sev, List.find?_cons, hq]
        · obtain ⟨ih1, ih2⟩ := ih k
          have hk2 : ¬ (q.1 = k) := fun h => hk h.symm
          constructor
          · rw [show acc_count (q :: add_complaint c rest) k
                = acc_count (add_complaint c rest) k from by
              simp [acc_count, List.find?_cons, hk2]]
            rw [show acc_count (q :: rest) k = acc_count rest k from by
              simp [acc_count, List.find?_cons, hk2]]
            exact ih1
          · rw [show acc_sev (q :: add_complaint c rest) k
                = acc_sev (add_complaint c rest) k from by
              simp [acc_sev, List.find?_cons, hk2]]
            rw [show acc_sev (q :: rest) k = acc_sev rest k from by
              simp [acc_sev, List.find?_cons, hk2]]
            exact ih2



lemma build_clusters_acc (cs : List Complaint) :
    ∀ (l : List ((ℚ × ℚ) × ClusterAcc)) (k : ℚ × ℚ),
      acc_count (cs.foldl (fun acc c => add_complaint c acc) l) k
          = acc_count l k + cs.countP (fun c => decide (grid_key c = k)) ∧
      acc_sev (cs.foldl (fun acc c => add_complaint c acc) l) k
          = acc_sev l k + ((cs.filter (fun c => decide (grid_key c = k))).map
              Complaint.severity_score).sum := by
  induction cs with
  | nil => intro l k; simp
  | cons c cs ih =>
      intro l k
      simp only [List.foldl_cons, List.countP_cons, List.filter_cons]
      obtain ⟨ih1, ih2⟩ := ih (add_complaint c l) k
      obtain ⟨ha1, ha2⟩ := add_complaint_acc c l k
      rw [ih1, ih2, ha1, ha2]
      by_cases hk : k = grid_key c
      · have hk2 : grid_key c = k := hk.symm
        constructor
        · rw [if_pos hk]
          simp [hk2]
          omega
        · rw [if_pos hk]
          simp [hk2]
          ring
      · have hk2 : ¬ (grid_key c = k) := fun h => hk h.symm
        constructor
        · simp [if_neg hk, hk2]
        · simp [if_neg hk, hk2]

lemma add_complaint_latlng (c : Complaint) :
    ∀ l, (∀ p ∈ l, p.2.lat = p.1.1 ∧ p.2.lng = p.1.2) →
      ∀ p ∈ add_complaint c l, p.2.lat = p.1.1 ∧ p.2.lng = p.1.2 := by
  intro l
  induction l with
  | nil =>
      intro _ p hp
      unfold add_complaint at hp
      rw [List.mem_singleton] at hp
      subst hp
      exact ⟨rfl, rfl⟩
  | cons q rest ih =>
      intro h p hp
      unfold add_complaint at hp
      split_ifs at hp with hq
      · rcases List.mem_cons.mp hp with h' | h'
        · subst h'
          have := h q (List.mem_cons_self q rest)
          exact this
        · exact h _ (List.mem_cons_of_mem q h')
      · rcases List.mem_cons.mp hp with h' | h'
        · subst h'
          exact h _ (List.mem_cons_self _ _)
        · exact ih (fun r hr => h r (List.mem_cons_of_mem q hr)) p h'

lemma add_complaint_keys (c : Complaint) :
    ∀ l : List ((ℚ × ℚ) × ClusterAcc),
      (grid_key c ∈ l.map Prod.fst → (add_complaint c l).map Prod.fst = l.map Prod.fst) ∧
      (grid_key c ∉ l.map Prod.fst →
        (add_complaint c l).map Prod.fst = l.map Prod.fst ++ [grid_key c]) := by
  intro l
  induction l with
  | nil =>
      constructor
      · intro h; cases h
      · intro _; rfl
  | cons q rest ih =>
      unfold add_complaint
      by_cases hq : q.1 = grid_key c
      · rw [if_pos hq]
        constructor
        · intro _; simp
        · intro h
          exfalso
          exact h (by simp [hq.symm])
      · rw [if_neg hq]
        constructor
        · intro h
          simp only [List.map_cons, List.mem_cons] at h
          rcases h with h | h
          · exact absurd h.symm hq
          · simp only [List.map_cons]
            rw [ih.1 h]
        · intro h
          simp only [List.map_cons, List.mem_cons, not_or] at h
          simp only [List.map_cons]
          rw [ih.2 h.2]
          rfl

lemma build_clusters_nodup_aux (cs : List Complaint) :
    ∀ l, (l.map Prod.fst).Nodup →
      ((cs.foldl (fun acc c => add_complaint c acc) l).map Prod.fst).Nodup := by
  induction cs with
  | nil => intro l h; exact h
  | cons c cs ih =>
      intro l h
      simp only [List.foldl_cons]
      refine ih (add_complaint c l) ?_
      by_cases hk : grid_key c ∈ l.map Prod.fst
      · rw [(add_complaint_keys c l).1 hk]; exact h
      · rw [(add_complaint_keys c l).2 hk]
        simp [List.nodup_append, h, hk]

lemma build_clusters_latlng_aux (cs : List Complaint) :
    ∀ l, (∀ p ∈ l, p.2.lat = p.1.1 ∧ p.2.lng = p.1.2) →
      ∀ p ∈ cs.foldl (fun acc c => add_complaint c acc) l,
        p.2.lat = p.1.1 ∧ p.2.lng = p.1.2 := by
  induction cs with
  | nil => intro l h; exact h
  | cons c cs ih =>
      intro l h
      simp only [List.foldl_cons]
      exact ih (add_complaint c l) (add_complaint_latlng c l h)

lemma find?_eq_of_mem_nodup {α β : Type} [DecidableEq α] {p : α × β} :
    ∀ {l : List (α × β)}, p ∈ l → (l.map Prod.fst).Nodup →
      l.find? (fun q => decide (q.1 = p.1)) = some p := by
  intro l
  induction l with
  | nil => intro h; cases h
  | cons a t ih =>
      intro hmem hnd
      rcases List.mem_cons.mp hmem with h | h
      · subst h
        rw [List.find?_cons_of_pos _ (by simp)]
      · have hp1 : p.1 ∈ t.map Prod.fst := List.mem_map_of_mem Prod.fst h
        have hnd' : a.1 ∉ t.map Prod.fst ∧ (t.map Prod.fst).Nodup := by
          rw [List.map_cons, List.nodup_cons] at hnd
          exact hnd
        have hne : ¬ a.1 = p.1 := fun he => hnd'.1 (he ▸ hp1)
        rw [List.find?_cons_of_neg _ (by simpa using hne)]
        exact ih h hnd'.2



lemma build_clusters_entry (cs : List Complaint) (p : (ℚ × ℚ) × ClusterAcc)
    (hp : p ∈ build_clusters cs) :
    p.2.lat = p.1.1 ∧ p.2.lng = p.1.2 ∧
    p.2.count = cs.countP (fun c => decide (grid_key c = p.1)) ∧
    p.2.sev_sum = ((cs.filter (fun c => decide (grid_key c = p.1))).map
        Complaint.severity_score).sum := by
  have hb : build_clusters cs = cs.foldl (fun acc c => add_complaint c acc) [] := rfl
  have hnd : ((build_clusters cs).map Prod.fst).Nodup := by
    rw [hb]
    exact build_clusters_nodup_aux cs [] (by simp)
  have hll := build_clusters_latlng_aux cs [] (by simp) p (hb ▸ hp)
  have hfind := find?_eq_of_mem_nodup hp hnd
  obtain ⟨hacc1, hacc2⟩ := build_clusters_acc cs [] p.1
  rw [← hb] at hacc1 hacc2
  have h1 : acc_count (build_clusters cs) p.1 = p.2.count := by
    simp [acc_count, hfind]
  have h2 : acc_sev (build_clusters cs) p.1 = p.2.sev_sum := by
    simp [acc_sev, hfind]
  refine ⟨hll.1, hll.2, ?_, ?_⟩
  · rw [← h1, hacc1]
    simp [acc_count]
  · rw [← h2, hacc2]
    simp [acc_sev]

lemma get_hotspots_mem (cs : List Complaint) (h : Hotspot) (hh : h ∈ get_hotspots cs) :
    ∃ p ∈ build_clusters cs, h = finalize_cluster p := by
  unfold get_hotspots at hh
  have h1 := (List.take_sublist 50 _).subset hh
  have h2 := (List.mergeSort_perm ((build_clusters cs).map finalize_cluster)
    (fun a b => decide (b.count ≤ a.count))).mem_iff.mp h1
  obtain ⟨p, hp, he⟩ := List.mem_map.mp h2
  exact ⟨p, hp, he.symm⟩

lemma get_hotspots_sorted (cs : List Complaint) :
    (get_hotspots cs).Pairwise (fun a b => b.count ≤ a.count) := by
  unfold get_hotspots
  have hs := @List.sorted_mergeSort Hotspot
    (fun a b => decide (b.count ≤ a.count))
    (fun a b c hab hbc => by
      simp only [decide_eq_true_eq] at *
      omega)
    (fun a b => by
      simp only [Bool.or_eq_true, decide_eq_true_eq]
      omega)
    ((build_clusters cs).map finalize_cluster)
  have := (List.Pairwise.sublist (List.take_sublist 50 _) hs)
  exact this.imp (by simp)




/-- Count stored in a per-cell category table for a label, 0 when absent. -/
def cat_table_count (t : List (String × ℕ)) (x : String) : ℕ :=
  ((t.find? (fun q => decide (q.1 = x))).map Prod.snd).getD 0

lemma bump_category_ne_nil (cat : String) (t : List (String × ℕ)) :
    bump_category cat t ≠ [] := by
  cases t with
  | nil => simp [bump_category]
  | cons q rest =>
      unfold bump_category
      split_ifs <;> simp

lemma bump_category_count (cat x : String) :
    ∀ t, cat_table_count (bump_category cat t) x
      = cat_table_count t x + (if x = cat then 1 else 0) := by
  intro t
  induction t with
  | nil =>
      by_cases hx : x = cat
      · subst hx
        simp [bump_category, cat_table_count]
      · have hx2 : ¬ (cat = x) := fun h => hx h.symm
        simp [bump_category, cat_table_count, hx, hx2]
  | cons q rest ih =>
      unfold bump_category
      by_cases hq : q.1 = cat
      · rw [if_pos hq]
        by_cases hx : x = q.1
        · subst hx
          have hxc : q.1 = cat := hq
          simp [cat_table_count, List.find?_cons, hxc]
        · have hx2 : ¬ (q.1 = x) := fun h => hx h.symm
          have hxc : ¬ x = cat := fun h => hx (h.trans hq.symm)
          simp [cat_table_count, List.find?_cons, hx2, hxc]
      · rw [if_neg hq]
        by_cases hx : x = q.1
        · subst hx
          simp [cat_table_count, List.find?_cons, hq]
        · have hx2 : ¬ (q.1 = x) := fun h => hx h.symm
          rw [show cat_table_count (q :: bump_category cat rest) x
              = cat_table_count (bump_category cat rest) x from by
            simp [cat_table_count, List.find?_cons, hx2]]
          rw [show cat_table_count (q :: rest) x = cat_table_count rest x from by
            simp [cat_table_count, List.find?_cons, hx2]]
          exact ih

lemma bump_category_keys (cat : String) :
    ∀ t : List (String × ℕ),
      (cat ∈ t.map Prod.fst → (bump_category cat t).map Prod.fst = t.map Prod.fst) ∧
      (cat ∉ t.map Prod.fst →
        (bump_category cat t).map Prod.fst = t.map Prod.fst ++ [cat]) := by
  intro t
  induction t with
  | nil =>
      constructor
      · intro h; cases h
      · intro _; rfl
  | cons q rest ih =>
      unfold bump_category
      by_cases hq : q.1 = cat
      · rw [if_pos hq]
        constructor
        · intro _; simp
        · intro h
          exact absurd (by simp [hq.symm]) h
      · rw [if_neg hq]
        constructor
        · intro h
          simp only [List.map_cons, List.mem_cons] at h
          rcases h with h | h
          · exact absurd h.symm hq
          · simp only [List.map_cons]
            rw [ih.1 h]
        · intro h
          simp only [List.map_cons, List.mem_cons, not_or] at h
          simp only [List.map_cons]
          rw [ih.2 h.2]
          rfl

lemma bump_category_nodup (cat : String) (t : List (String × ℕ))
    (h : (t.map Prod.fst).Nodup) : ((bump_category cat t).map Prod.fst).Nodup := by
  by_cases hk : cat ∈ t.map Prod.fst
  · rw [(bump_category_keys cat t).1 hk]
    exact h
  · rw [(bump_category_keys cat t).2 hk]
    simp [List.nodup_append, h, hk]

lemma bump_category_pos (cat : String) :
    ∀ t, (∀ e ∈ t, 0 < e.2) → ∀ e ∈ bump_category cat t, 0 < e.2 := by
  intro t
  induction t with
  | nil =>
      intro _ e he
      unfold bump_category at he
      rw [List.mem_singleton.mp he]
      exact Nat.one_pos
  | cons q rest ih =>
      intro h e he
      unfold bump_category at he
      split_ifs at he with hq
      · rcases List.mem_cons.mp he with h' | h'
        · rw [h']
          exact Nat.succ_pos _
        · exact h e (List.mem_cons_of_mem q h')
      · rcases List.mem_cons.mp he with h' | h'
        · rw [h']
          exact h q (List.mem_cons_self q rest)
        · exact ih (fun r hr => h r (List.mem_cons_of_mem q hr)) e h'

/-- Category table stored in the (first) cluster entry for a key, empty when
absent. -/
def acc_cats (l : List ((ℚ × ℚ) × ClusterAcc)) (k : ℚ × ℚ) : List (String × ℕ) :=
  ((l.find? (fun q => decide (q.1 = k))).map (fun q => q.2.cat_counts)).getD []

lemma add_complaint_cats (c : Complaint) :
    ∀ (l : List ((ℚ × ℚ) × ClusterAcc)) (k : ℚ × ℚ),
      acc_cats (add_complaint c l) k
        = if k = grid_key c then bump_category c.category (acc_cats l k)
          else acc_cats l k := by
  intro l
  induction l with
  | nil =>
      intro k
      by_cases hk : k = grid_key c
      · subst hk
        simp [acc_cats, add_complaint, bump_category]
      · have hk2 : ¬ (grid_key c = k) := fun h => hk h.symm
        simp [acc_cats, add_complaint, List.find?_cons, hk, hk2]
  | cons q rest ih =>
      intro k
      unfold add_complaint
      by_cases hq : q.1 = grid_key c
      · rw [if_pos hq]
        by_cases hk : k = q.1
        · subst hk
          simp [acc_cats, List.find?_cons, hq]
        · have hk' : ¬ k = grid_key c := fun h => hk (h.trans hq.symm)
          have hk2 : ¬ (q.1 = k) := fun h => hk h.symm
          simp [acc_cats, List.find?_cons, hk2, hk']
      · rw [if_neg hq]
        by_cases hk : k = q.1
        · subst hk
          simp [acc_cats, List.find?_cons, hq]
        · have hk2 : ¬ (q.1 = k) := fun h => hk h.symm
          rw [show acc_cats (q :: add_complaint c rest) k
              = acc_cats (add_complaint c rest) k from by
            simp [acc_cats, List.find?_cons, hk2]]
          rw [show acc_cats (q :: rest) k = acc_cats rest k from by
            simp [acc_cats, List.find?_cons, hk2]]
          exact ih k

lemma build_clusters_cats (cs : List Complaint) :
    ∀ (l : List ((ℚ × ℚ) × ClusterAcc)) (k : ℚ × ℚ),
      acc_cats (cs.foldl (fun acc c => add_complaint c acc) l) k
        = (cs.filter (fun c => decide (grid_key c = k))).foldl
            (fun t c => bump_category c.category t) (acc_cats l k) := by
  induction cs with
  | nil => intro l k; simp
  | cons c cs ih =>
      intro l k
      simp only [List.foldl_cons, List.filter_cons]
      rw [ih (add_complaint c l) k, add_complaint_cats c l k]
      by_cases hk : k = grid_key c
      · have hk2 : grid_key c = k := hk.symm
        rw [if_pos hk]
        simp [hk2]
      · have hk2 : ¬ (grid_key c = k) := fun h => hk h.symm
        rw [if_neg hk]
        simp [hk2]

lemma bump_fold_count (x : String) :
    ∀ (ccs : List Complaint) (t : List (String × ℕ)),
      cat_table_count (ccs.foldl (fun t c => bump_category c.category t) t) x
        = cat_table_count t x + ccs.countP (fun c => decide (c.category = x)) := by
  intro ccs
  induction ccs with
  | nil => intro t; simp
  | cons c ccs ih =>
      intro t
      simp only [List.foldl_cons, List.countP_cons]
      rw [ih (bump_category c.category t), bump_category_count c.category x t]
      by_cases hx : x = c.category
      · subst hx
        simp
        omega
      · have hx2 : ¬ (c.category = x) := fun h => hx h.symm
        simp [hx, hx2]

lemma bump_fold_nodup :
    ∀ (ccs : List Complaint) (t : List (String × ℕ)),
      (t.map Prod.fst).Nodup →
      ((ccs.foldl (fun t c => bump_category c.category t) t).map Prod.fst).Nodup := by
  intro ccs
  induction ccs with
  | nil => intro t h; exact h
  | cons c ccs ih =>
      intro t h
      simp only [List.foldl_cons]
      exact ih _ (bump_category_nodup c.category t h)

lemma bump_fold_pos :
    ∀ (ccs : List Complaint) (t : List (String × ℕ)),
      (∀ e ∈ t, 0 < e.2) →
      ∀ e ∈ ccs.foldl (fun t c => bump_category c.category t) t, 0 < e.2 := by
  intro ccs
  induction ccs with
  | nil => intro t h; exact h
  | cons c ccs ih =>
      intro t h
      simp only [List.foldl_cons]
      exact ih _ (bump_category_pos c.category t h)

lemma bump_fold_ne_nil :
    ∀ (ccs : List Complaint) (t : List (String × ℕ)), t ≠ [] →
      ccs.foldl (fun t c => bump_category c.category t) t ≠ [] := by
  intro ccs
  induction ccs with
  | nil => intro t h; exact h
  | cons c ccs ih =>
      intro t _
      simp only [List.foldl_cons]
      exact ih _ (bump_category_ne_nil c.category t)

/-- A key listed in the cluster dict was put there by some complaint of the
processed list. -/
lemma build_keys_countP (cs : List Complaint) :
    ∀ (l : List ((ℚ × ℚ) × ClusterAcc)) (k : ℚ × ℚ),
      k ∈ (cs.foldl (fun acc c => add_complaint c acc) l).map Prod.fst →
      k ∈ l.map Prod.fst ∨ 0 < cs.countP (fun c => decide (grid_key c = k)) := by
  induction cs with
  | nil => intro l k h; exact Or.inl h
  | cons c cs ih =>
      intro l k h
      simp only [List.foldl_cons] at h
      rcases ih (add_complaint c l) k h with h' | h'
      · by_cases hm : grid_key c ∈ l.map Prod.fst
        · rw [(add_complaint_keys c l).1 hm] at h'
          exact Or.inl h'
        · rw [(add_complaint_keys c l).2 hm] at h'
          rcases List.mem_append.mp h' with h'' | h''
          · exact Or.inl h''
          · right
            have hgk : grid_key c = k := (List.mem_singleton.mp h'').symm
            rw [List.countP_cons]
            simp [hgk]
      · right
        rw [List.countP_cons]
        omega

/-- Test fixture: a complaint at (28.61390, 77.20899). -/
def hotspotA : Complaint :=
  { sampleCritical with latitude := 28.6139, longitude := 77.20899, severity_score := 0.5 }

/-- Test fixture: a complaint at (28.61395, 77.20901), in a different
category than `hotspotA` so the concrete example exercises the dominant
category tie-break. -/
def hotspotB : Complaint :=
  { sampleCritical with
      id := 2
      category := "water"
      latitude := 28.61395
      longitude := 77.20901
      severity_score := 0.7 }

/-- The single hotspot entry the two fixture complaints aggregate into: the
roads/water tie resolves to the first-encountered category. -/
def expectedHotspot : Hotspot :=
  { lat := 28.61, lng := 77.21, count := 2, avg_severity := 0.6,
    top_category := some "roads" }

/-! ## Claims -/

set_option maxHeartbeats 1000000 in
/-- C1 counterexample: linking a 2nd duplicate onto an original with 1 prior
duplicate boosts severity by 0.2, not 0.1 (the count query runs after the
link is written, so it includes the just-linked duplicate), and the
cumulative boost across successive link calls is not capped at 0.3: three
links onto a severity-0 original raise it to 0.6. -/
theorem mark_as_duplicate_boost_counterexample :
    ((mark_as_duplicate [dupOriginal, dupFirst, dupSecond] 2 0).2.map
        Complaint.severity_score) = [0.7, 1, 1] ∧
    ((mark_as_duplicate [dupOriginal, dupFirst, dupSecond] 2 0).2.map
        Complaint.severity_score) ≠ [0.6, 1, 1] ∧
    (((mark_as_duplicate ((mark_as_duplicate ((mark_as_duplicate
        [cumulOriginal, cumulDup 1, cumulDup 2, cumulDup 3] 1 0).2) 2 0).2) 3 0).2).map
        Complaint.severity_score) = [0.6, 0, 0, 0] := by
  have h : ((mark_as_duplicate [dupOriginal, dupFirst, dupSecond] 2 0).2.map
      Complaint.severity_score) = [0.7, 1, 1] := by
    norm_num [mark_as_duplicate, dupOriginal, dupFirst, dupSecond, sampleCritical,
      List.countP_cons]
    simp
    norm_num
  refine ⟨h, by rw [h]; norm_num, ?_⟩
  norm_num [mark_as_duplicate, cumulOriginal, cumulDup, sampleCritical, List.countP_cons]
  simp
  norm_num

/-- C1 (amended): when the duplicate row is present exactly once and not yet
linked to the original, `mark_as_duplicate` links it and boosts every row
with the original's id by `min((n + 1) × 0.1, 0.3)` clamped to 1.0, where
`n` is the number of duplicates pointing at the original before the call:
the count includes the just-linked duplicate, so the 2nd duplicate boosts by
0.2, and only the per-call boost (not the cumulative boost) is capped at
0.3. -/
theorem mark_as_duplicate_boost (db : List Complaint) (dup orig : ℕ)
    (hne : dup ≠ orig)
    (h1 : db.countP (fun c => decide (c.id = dup)) = 1)
    (h2 : ∀ c ∈ db, c.id = dup → c.duplicate_of_id ≠ some orig) :
    mark_as_duplicate db dup orig
      = (true,
         db.map (fun c =>
           let c1 := if c.id = dup
             then { c with is_duplicate := true, duplicate_of_id := some orig } else c
           let cnt : ℕ := db.countP (fun e => decide (e.duplicate_of_id = some orig)) + 1
           let boost : ℚ := min ((cnt : ℚ) * 0.1) 0.3
           if c1.id = orig then { c1 with severity_score := min (c1.severity_score + boost) 1 }
           else c1)) := by
  unfold mark_as_duplicate
  rw [if_neg hne]
  dsimp only
  have hcnt := countP_after_link dup orig db h2
  rw [h1] at hcnt
  rw [hcnt]
  rw [if_pos (Nat.succ_pos _)]
  rw [List.map_map]
  rfl

/-- Witness for C1's amended theorem at the concrete three-row table. -/
theorem mark_as_duplicate_boost_witness :
    (mark_as_duplicate [dupOriginal, dupFirst, dupSecond] 2 0).1 = true := by
  rw [mark_as_duplicate_boost [dupOriginal, dupFirst, dupSecond] 2 0 (by decide) (by decide)
    (by decide)]

/-- C2 counterexample: the escalation driver is not idempotent per
invocation.  A critical-priority complaint created 9 hours ago (past twice
its 4-hour threshold) at level 0 escalates to level 1 in a first run, and an
immediately repeated run at the same instant escalates it again (1 → 2) and
returns 1, not 0. -/
theorem run_escalation_check_second_run_escalates :
    (run_escalation_check 9 ((run_escalation_check 9 [sampleCritical]).2)).1 = 1 ∧
    (run_escalation_check 9 ((run_escalation_check 9 [sampleCritical]).2)).1 ≠ 0 ∧
    ((run_escalation_check 9 [sampleCritical]).2).map Complaint.escalation_level = [1] ∧
    ((run_escalation_check 9 ((run_escalation_check 9 [sampleCritical]).2)).2).map
        Complaint.escalation_level = [2] := by
  have hopen : is_open_status sampleCritical = true := by decide
  have hterm : ¬(sampleCritical.status = "resolved" ∨ sampleCritical.status = "closed") := by
    decide
  have h1 : run_escalation_check 9 [sampleCritical]
      = (1, [{ sampleCritical with escalation_level := 1, escalated_at := some 9 }]) := by
    rw [run_escalation_check_cons, run_escalation_check_nil]
    rw [escalation_step_eq_of_open 9 sampleCritical hopen]
    rw [check_escalation_lvl0_fire 9 sampleCritical hterm (by decide)
      (by norm_num [sampleCritical, escalation_threshold])]
    simp
  rw [h1]
  dsimp only
  set c1 : Complaint := { sampleCritical with escalation_level := 1, escalated_at := some 9 }
    with hc1
  have hopen1 : is_open_status c1 = true := by decide
  have hterm1 : ¬(c1.status = "resolved" ∨ c1.status = "closed") := by decide
  have h2 : run_escalation_check 9 [c1] = (1, [{ c1 with escalation_level := 2 }]) := by
    rw [run_escalation_check_cons, run_escalation_check_nil]
    rw [escalation_step_eq_of_open 9 c1 hopen1]
    rw [check_escalation_lvl1_fire 9 c1 hterm1 (by decide)
      (by norm_num [hc1, sampleCritical, escalation_threshold])]
    simp
  rw [h2]
  refine ⟨rfl, by simp, rfl, rfl⟩

/-- C2 (amended): the escalation driver stabilizes after two runs at a fixed
instant: a third run with no elapsed time returns 0 escalations and leaves
every complaint unchanged.  (A single run is not a fixed point: a level-0
complaint already past twice its threshold takes two runs, 0 → 1 → 2.) -/
theorem run_escalation_check_stabilizes (now : ℚ) (cs : List Complaint) :
    run_escalation_check now ((run_escalation_check now ((run_escalation_check now cs).2)).2)
      = (0, (run_escalation_check now ((run_escalation_check now cs).2)).2) := by
  induction cs with
  | nil => rfl
  | cons c cs ih =>
      simp only [run_escalation_check_cons]
      rw [escalation_step_stable now c, ih]
      simp

/-- C3: `check_escalation` implements exactly the documented transition
rules: terminal statuses are absorbing; from level 0 it moves to level 1
(only) when `hours_pending > threshold(priority)` and stamps `escalated_at`;
from level 1 it moves to level 2 when `hours_pending > 2 × threshold`
without restamping `escalated_at`; level 2 does not transition; the boolean
result is `true` exactly when the level changed; thresholds are
critical 4 / high 24 / medium 72 / low 168 with default 72. -/
theorem check_escalation_rules (now : ℚ) (c : Complaint) :
    (c.status = "resolved" ∨ c.status = "closed" → check_escalation now c = (false, c)) ∧
    (¬(c.status = "resolved" ∨ c.status = "closed") →
      (c.escalation_level = 0 →
        (now - c.created_at > escalation_threshold c.priority →
          check_escalation now c
            = (true, { c with escalation_level := 1, escalated_at := some now })) ∧
        (¬ now - c.created_at > escalation_threshold c.priority →
          check_escalation now c = (false, c))) ∧
      (c.escalation_level = 1 →
        (now - c.created_at > escalation_threshold c.priority * 2 →
          check_escalation now c = (true, { c with escalation_level := 2 })) ∧
        (¬ now - c.created_at > escalation_threshold c.priority * 2 →
          check_escalation now c = (false, c))) ∧
      (c.escalation_level = 2 → check_escalation now c = (false, c))) ∧
    ((check_escalation now c).1 = true ↔
      (check_escalation now c).2.escalation_level ≠ c.escalation_level) ∧
    escalation_threshold "critical" = 4 ∧ escalation_threshold "high" = 24 ∧
    escalation_threshold "medium" = 72 ∧ escalation_threshold "low" = 168 ∧
    (c.priority ∉ (["critical", "high", "medium", "low"] : List String) →
      escalation_threshold c.priority = 72) := by
  refine ⟨check_escalation_terminal now c, ?_, ?_, by simp [escalation_threshold],
    by simp [escalation_threshold], by simp [escalation_threshold],
    by simp [escalation_threshold], ?_⟩
  · intro hterm
    refine ⟨fun h0 => ⟨fun hh => check_escalation_lvl0_fire now c hterm h0 hh,
        fun hh => check_escalation_lvl0_idle now c hterm h0 hh⟩,
      fun h1 => ⟨fun hh => check_escalation_lvl1_fire now c hterm h1 hh,
        fun hh => check_escalation_lvl1_idle now c hterm h1 hh⟩,
      fun h2 => check_escalation_lvl_other now c hterm ⟨by omega, by omega⟩⟩
  · by_cases hterm : c.status = "resolved" ∨ c.status = "closed"
    · rw [check_escalation_terminal now c hterm]
      simp
    · by_cases h0 : c.escalation_level = 0
      · by_cases hh : now - c.created_at > escalation_threshold c.priority
        · rw [check_escalation_lvl0_fire now c hterm h0 hh]
          simp [h0]
        · rw [check_escalation_lvl0_idle now c hterm h0 hh]
          simp
      · by_cases h1 : c.escalation_level = 1
        · by_cases hh : now - c.created_at > escalation_threshold c.priority * 2
          · rw [check_escalation_lvl1_fire now c hterm h1 hh]
            simp [h1]
          · rw [check_escalation_lvl1_idle now c hterm h1 hh]
            simp
        · rw [check_escalation_lvl_other now c hterm ⟨h0, h1⟩]
          simp
  · intro h
    simp only [List.mem_cons, List.not_mem_nil, or_false, not_or] at h
    obtain ⟨h1, h2, h3, h4⟩ := h
    unfold escalation_threshold
    rw [if_neg h1, if_neg h2, if_neg h3, if_neg h4]

/-- Witness for C3: a critical complaint 5 hours old fires the level-1
transition, and an unrecognized priority falls back to the 72-hour
threshold. -/
theorem check_escalation_rules_witness :
    check_escalation 5 sampleCritical
      = (true, { sampleCritical with escalation_level := 1, escalated_at := some 5 }) ∧
    escalation_threshold
        (Complaint.priority { sampleCritical with priority := "unspecified" }) = 72 :=
  ⟨(((check_escalation_rules 5 sampleCritical).2.1 (by decide)).1 (by decide)).1
      (by norm_num [sampleCritical, escalation_threshold]),
   (check_escalation_rules 5 { sampleCritical with priority := "unspecified" }).2.2.2.2.2.2.2
      (by decide)⟩

/-- C4: `get_priority_from_score` maps `score ≥ 0.8` to critical,
`0.6 ≤ score < 0.8` to high, `0.4 ≤ score < 0.6` to medium and
`score < 0.4` to low; the mapping is total, monotonic non-decreasing in the
score, and boundary-inclusive upward (0.8 is critical, 0.6 high, 0.4 medium). -/
theorem get_priority_from_score_spec (s : ℚ) :
    (0.8 ≤ s → get_priority_from_score s = "critical") ∧
    (0.6 ≤ s ∧ s < 0.8 → get_priority_from_score s = "high") ∧
    (0.4 ≤ s ∧ s < 0.6 → get_priority_from_score s = "medium") ∧
    (s < 0.4 → get_priority_from_score s = "low") ∧
    (∀ t : ℚ, s ≤ t →
      priority_rank (get_priority_from_score s)
        ≤ priority_rank (get_priority_from_score t)) ∧
    get_priority_from_score 0.8 = "critical" ∧
    get_priority_from_score 0.6 = "high" ∧
    get_priority_from_score 0.4 = "medium" := by
  refine ⟨?_, ?_, ?_, ?_, ?_, ?_, ?_, ?_⟩
  · intro h
    unfold get_priority_from_score
    rw [if_pos h]
  · rintro ⟨ha, hb⟩
    unfold get_priority_from_score
    rw [if_neg (by linarith), if_pos ha]
  · rintro ⟨ha, hb⟩
    unfold get_priority_from_score
    rw [if_neg (by linarith), if_neg (by linarith), if_pos ha]
  · intro h
    unfold get_priority_from_score
    rw [if_neg (by linarith), if_neg (by linarith), if_neg (by linarith)]
  · intro t hst
    rw [priority_rank_from_score, priority_rank_from_score]
    split_ifs <;> first | omega | linarith
  · norm_num [get_priority_from_score]
  · norm_num [get_priority_from_score]
  · norm_num [get_priority_from_score]

/-- Witness for C4 at concrete scores. -/
theorem get_priority_from_score_spec_witness :
    get_priority_from_score 0.85 = "critical" ∧
    get_priority_from_score 0.7 = "high" ∧
    get_priority_from_score 0.5 = "medium" ∧
    get_priority_from_score 0.3 = "low" ∧
    priority_rank (get_priority_from_score 0.3)
      ≤ priority_rank (get_priority_from_score 0.85) :=
  ⟨(get_priority_from_score_spec 0.85).1 (by norm_num),
   (get_priority_from_score_spec 0.7).2.1 ⟨by norm_num, by norm_num⟩,
   (get_priority_from_score_spec 0.5).2.2.1 ⟨by norm_num, by norm_num⟩,
   (get_priority_from_score_spec 0.3).2.2.2.1 (by norm_num),
   (get_priority_from_score_spec 0.3).2.2.2.2.1 0.85 (by norm_num)⟩

/-- C5: the urgency scorer agrees with the spec's reference definition
(critical short-circuit to exactly 1.0; otherwise weighted tier average with
weights 1.0/0.7/0.4/0.1; default 0.30 on zero hits), and its result lies in
[0, 1] for every text. -/
theorem calculate_keyword_urgency_spec (text : String) :
    calculate_keyword_urgency text = keyword_urgency_ref text ∧
    0 ≤ calculate_keyword_urgency text ∧
    calculate_keyword_urgency text ≤ 1 := by
  refine ⟨?_, le_trans (by norm_num) (tenth_le_calculate_keyword_urgency text),
    calculate_keyword_urgency_le_one text⟩
  unfold calculate_keyword_urgency keyword_urgency_ref
  dsimp only
  split_ifs with h1 h2
  · rfl
  · refine min_eq_left ?_
    rw [div_le_one (by exact_mod_cast h2)]
    push_cast
    exact weighted_score_le_total _ _ _ _
  · rfl

/-- C8: `mark_as_duplicate` on a self-reference returns `false` and leaves
the table (hence the complaint's `is_duplicate`, `duplicate_of_id` and
`severity_score`) unchanged; for distinct ids it returns `true`, and the
function is total (the boolean is its only failure mode). -/
theorem mark_as_duplicate_self (db : List Complaint) (a b : ℕ) :
    mark_as_duplicate db a a = (false, db) ∧
    (a ≠ b → (mark_as_duplicate db a b).1 = true) := by
  constructor
  · simp [mark_as_duplicate]
  · intro hab
    unfold mark_as_duplicate
    rw [if_neg hab]
    dsimp only
    split_ifs <;> rfl

/-- Witness for C8 on a concrete table. -/
theorem mark_as_duplicate_self_witness :
    mark_as_duplicate [] 1 1 = (false, []) ∧ (mark_as_duplicate [] 1 2).1 = true :=
  ⟨(mark_as_duplicate_self [] 1 2).1, (mark_as_duplicate_self [] 1 2).2 (by decide)⟩

/-- C6: `classify_category` returns ("other", 0.30) exactly when no category
has a positive keyword-match count; otherwise it returns a category with the
maximal count and confidence `max_score / total_score` capped at 0.90; the
returned confidence never exceeds 0.9; and the garbage/dustbin example
classifies as sanitation with confidence 0.9. -/
theorem classify_category_spec (text : String) :
    (classify_category text = ("other", 0.3) ↔ category_scores (pyLower text) = []) ∧
    (classify_category text).2 ≤ 0.9 ∧
    (category_scores (pyLower text) ≠ [] →
      ∃ p, p ∈ category_scores (pyLower text) ∧
        (classify_category text).1 = p.1 ∧
        (∀ q ∈ category_scores (pyLower text), q.2 ≤ p.2) ∧
        (classify_category text).2
          = min ((p.2 : ℚ) / (((category_scores (pyLower text)).map Prod.snd).sum : ℚ)) 0.9) ∧
    classify_category "overflowing garbage dustbin near school" = ("sanitation", 0.9) := by
  have hconc : classify_category "overflowing garbage dustbin near school"
      = ("sanitation", 0.9) := by
    have hsc : category_scores (pyLower "overflowing garbage dustbin near school")
        = [("sanitation", 2)] := by decide
    unfold classify_category
    dsimp only
    rw [hsc]
    dsimp only
    norm_num
  rcases hs : category_scores (pyLower text) with - | ⟨s0, rest⟩
  · have hcl : classify_category text = ("other", 0.3) := by
      unfold classify_category
      dsimp only
      rw [hs]
    refine ⟨iff_of_true hcl rfl, ?_, fun hne => absurd rfl hne, hconc⟩
    rw [hcl]
    norm_num
  · have hcl : classify_category text
        = ((rest.foldl (fun acc p => if acc.2 < p.2 then p else acc) s0).1,
           min (if 0 < ((s0 :: rest).map Prod.snd).sum then
              ((rest.foldl (fun acc p => if acc.2 < p.2 then p else acc) s0).2 : ℚ)
                / (((s0 :: rest).map Prod.snd).sum : ℚ) else 0.5) 0.9) := by
      unfold classify_category
      dsimp only
      rw [hs]
    set best := rest.foldl (fun acc p => if acc.2 < p.2 then p else acc) s0 with hbest
    have hmem : best ∈ s0 :: rest := foldl_max_mem Prod.snd rest s0
    have hmax : ∀ q ∈ s0 :: rest, q.2 ≤ best.2 := fun q hq => foldl_max_ge Prod.snd rest s0 q hq
    have hpos : 0 < ((s0 :: rest).map Prod.snd).sum := by
      have h0 : 0 < s0.2 :=
        category_scores_pos (pyLower text) s0 (hs ▸ List.mem_cons_self s0 rest)
      have hmm : s0.2 ∈ (s0 :: rest).map Prod.snd :=
        List.mem_map_of_mem Prod.snd (List.mem_cons_self s0 rest)
      calc 0 < s0.2 := h0
      _ ≤ ((s0 :: rest).map Prod.snd).sum :=
        List.single_le_sum (fun x _ => Nat.zero_le x) _ hmm
    have hkey : best.1 ∈ category_keywords.map Prod.fst :=
      category_scores_key (pyLower text) best (hs ▸ hmem)
    have hother : best.1 ≠ "other" := by
      intro h
      rw [h] at hkey
      revert hkey
      decide
    refine ⟨?_, ?_, fun _ => ⟨best, hs ▸ hmem, ?_, ?_, ?_⟩, hconc⟩
    · refine iff_of_false ?_ (by simp)
      intro h
      have := congrArg Prod.fst h
      dsimp at this
      rw [hcl] at this
      exact hother this
    · rw [hcl]
      exact min_le_right _ _
    · rw [hcl]
    · intro q hq
      exact hmax q (hs ▸ hq)
    · rw [hcl]
      dsimp only
      rw [if_pos hpos]

/-- Witness for C6: applying the nonempty-score clause at the concrete
sanitation example. -/
theorem classify_category_spec_witness :
    ∃ p, p ∈ category_scores (pyLower "overflowing garbage dustbin near school") ∧
      (classify_category "overflowing garbage dustbin near school").1 = p.1 := by
  obtain ⟨p, hp, h1, -, -⟩ :=
    (classify_category_spec "overflowing garbage dustbin near school").2.2.1 (by decide)
  exact ⟨p, hp, h1⟩

/-- C7: `auto_assign_complaint` returns none when the department is missing
(or empty) or has no active officers; otherwise it assigns the officer with
the strictly smallest open load (complaints with status pending/in_progress
assigned to them), ties broken by the first officer in iteration order; with
open loads [3, 1, 1] it picks the officer at index 1. -/
theorem auto_assign_complaint_spec (users : List User) (complaints : List Complaint)
    (c : Complaint) :
    (c.department = none → auto_assign_complaint users complaints c = (none, c)) ∧
    (∀ d, c.department = some d → department_officers users d = [] →
      auto_assign_complaint users complaints c = (none, c)) ∧
    (∀ d, c.department = some d → d ≠ "" → department_officers users d ≠ [] →
      ∃ u, u ∈ department_officers users d ∧
        auto_assign_complaint users complaints c
          = (some u, { c with officer_id := some u.id }) ∧
        (∀ v ∈ department_officers users d,
          open_load complaints u.id ≤ open_load complaints v.id) ∧
        (department_officers users d).find?
            (fun v => decide (open_load complaints v.id = open_load complaints u.id))
          = some u) ∧
    (auto_assign_complaint sampleUsers sampleLoadDb sampleTarget).1 = some sampleOfficer1 := by
  refine ⟨?_, ?_, ?_, by decide⟩
  · intro h
    unfold auto_assign_complaint
    rw [h]
  · intro d hd hoff
    unfold auto_assign_complaint
    rw [hd]
    dsimp only
    split_ifs with he
    · rfl
    · rw [hoff]
      rfl
  · intro d hd hne hoff
    obtain ⟨u, hsel, hmem, hmin, hfind⟩ := select_officer_spec complaints _ hoff
    refine ⟨u, hmem, ?_, hmin, hfind⟩
    unfold auto_assign_complaint
    rw [hd]
    dsimp only
    rw [if_neg hne, hsel]

/-- Witness for C7: the missing-department clause and the selection clause at
the concrete [3,1,1] fixture. -/
theorem auto_assign_complaint_spec_witness :
    (auto_assign_complaint sampleUsers sampleLoadDb
        { sampleTarget with department := none }
      = (none, { sampleTarget with department := none })) ∧
    ∃ u, u ∈ department_officers sampleUsers "PWD" ∧
      auto_assign_complaint sampleUsers sampleLoadDb sampleTarget
        = (some u, { sampleTarget with officer_id := some u.id }) := by
  refine ⟨(auto_assign_complaint_spec sampleUsers sampleLoadDb _).1 rfl, ?_⟩
  obtain ⟨u, hmem, heq, -, -⟩ :=
    (auto_assign_complaint_spec sampleUsers sampleLoadDb sampleTarget).2.2.1 "PWD" rfl
      (by decide) (by decide)
  exact ⟨u, hmem, heq⟩

/-- C10: at submission time (`time_unresolved_hours = 0`, location importance
0.5, nearby factor 0.3, weights 0.3/0.2/0.2/0.3) the severity score of every
processed complaint lies in [0.24, 0.51], so a newly submitted complaint is
always priority `medium` or `low`, never `critical` or `high`, regardless of
its text, category hint or coordinates. -/
theorem process_complaint_submission_bounds (text : String) (category : Option String)
    (latitude longitude : ℚ) :
    0.24 ≤ (process_complaint text category latitude longitude).severity_score ∧
    (process_complaint text category latitude longitude).severity_score ≤ 0.51 ∧
    ((process_complaint text category latitude longitude).priority = "medium" ∨
     (process_complaint text category latitude longitude).priority = "low") := by
  have hk1 := tenth_le_calculate_keyword_urgency text
  have hk2 := calculate_keyword_urgency_le_one text
  set k := calculate_keyword_urgency text with hk
  have hsev : (process_complaint text category latitude longitude).severity_score
      = pyRoundTo 3 (min (0.3 * k + 0.21) 1) := by
    show calculate_severity_score text _ latitude longitude 0 = _
    unfold calculate_severity_score calculate_location_importance get_nearby_complaint_factor
      w_keyword_urgency w_nearby_complaints w_time_unresolved w_location_importance
    dsimp only
    rw [← hk]
    norm_num
    ring_nf
  have hmin : min (0.3 * k + 0.21) 1 = 0.3 * k + 0.21 := min_eq_left (by linarith)
  have hlow : (0.24:ℚ) ≤ pyRoundTo 3 (0.3 * k + 0.21) := by
    have := le_pyRoundTo_of_le 3 (0.3 * k + 0.21) 240 (by push_cast; linarith)
    calc (0.24:ℚ) = (240 : ℚ) / 10 ^ 3 := by norm_num
    _ ≤ _ := this
  have hhigh : pyRoundTo 3 (0.3 * k + 0.21) ≤ 0.51 := by
    have := pyRoundTo_le_of_le 3 (0.3 * k + 0.21) 510 (by push_cast; linarith)
    calc pyRoundTo 3 (0.3 * k + 0.21) ≤ (510 : ℚ) / 10 ^ 3 := this
    _ = 0.51 := by norm_num
  have hpri : (process_complaint text category latitude longitude).priority
      = get_priority_from_score
          ((process_complaint text category latitude longitude).severity_score) := rfl
  rw [hsev, hmin]
  refine ⟨hlow, hhigh, ?_⟩
  rw [hpri, hsev, hmin]
  unfold get_priority_from_score
  rw [if_neg (by linarith), if_neg (by linarith)]
  split_ifs with h4
  · exact Or.inl rfl
  · exact Or.inr rfl

/-- C9: the spatial clusterer snaps each complaint to the cell
`(round(lat / 0.01) * 0.01, round(lng / 0.01) * 0.01)`; every returned entry
carries that cell's complaint count, the 2-decimal-rounded mean severity of
its complaints, and a dominant category: a label that occurs in the cell and
whose per-cell occurrence count is maximal over all categories; entries are
ordered by descending count and capped to 50; and the two complaints at
(28.61390, 77.20899) and (28.61395, 77.20901) land in one cell, producing a
single entry with count 2 (its roads/water category tie resolving to the
first-encountered label). -/
theorem get_hotspots_spec :
    (∀ cs : List Complaint, (get_hotspots cs).Pairwise (fun a b => b.count ≤ a.count)) ∧
    (∀ cs : List Complaint, (get_hotspots cs).length ≤ 50) ∧
    (∀ cs : List Complaint, ∀ h ∈ get_hotspots cs,
      h.count = cs.countP (fun c => decide (grid_key c = (h.lat, h.lng))) ∧
      h.avg_severity = pyRoundTo 2
        (((cs.filter (fun c => decide (grid_key c = (h.lat, h.lng)))).map
            Complaint.severity_score).sum / (h.count : ℚ)) ∧
      (∃ t : String, h.top_category = some t ∧
        0 < (cs.filter (fun c => decide (grid_key c = (h.lat, h.lng)))).countP
            (fun c => decide (c.category = t)) ∧
        ∀ cat : String,
          (cs.filter (fun c => decide (grid_key c = (h.lat, h.lng)))).countP
              (fun c => decide (c.category = cat))
            ≤ (cs.filter (fun c => decide (grid_key c = (h.lat, h.lng)))).countP
                (fun c => decide (c.category = t)))) ∧
    get_hotspots [hotspotA, hotspotB] = [expectedHotspot] := by
  refine ⟨get_hotspots_sorted, ?_, ?_, ?_⟩
  · intro cs
    unfold get_hotspots
    exact List.length_take_le _ _
  · intro cs h hh
    obtain ⟨p, hp, he⟩ := get_hotspots_mem cs h hh
    obtain ⟨hl1, hl2, hc, hs⟩ := build_clusters_entry cs p hp
    have hb : build_clusters cs = cs.foldl (fun acc c => add_complaint c acc) [] := rfl
    have hnd : ((build_clusters cs).map Prod.fst).Nodup := by
      rw [hb]
      exact build_clusters_nodup_aux cs [] (by simp)
    have hfind := find?_eq_of_mem_nodup hp hnd
    have hcats : p.2.cat_counts
        = (cs.filter (fun c => decide (grid_key c = p.1))).foldl
            (fun t c => bump_category c.category t) [] := by
      have h1 : acc_cats (build_clusters cs) p.1 = p.2.cat_counts := by
        simp [acc_cats, hfind]
      have h2 := build_clusters_cats cs [] p.1
      rw [← hb] at h2
      rw [← h1, h2]
      rfl
    have htable : ∀ x : String, cat_table_count p.2.cat_counts x
        = (cs.filter (fun c => decide (grid_key c = p.1))).countP
            (fun c => decide (c.category = x)) := by
      intro x
      rw [hcats, bump_fold_count x _ []]
      simp [cat_table_count]
    have hposall : ∀ e ∈ p.2.cat_counts, 0 < e.2 := by
      rw [hcats]
      exact bump_fold_pos _ [] (by simp)
    have hndcat : (p.2.cat_counts.map Prod.fst).Nodup := by
      rw [hcats]
      exact bump_fold_nodup _ [] (by simp)
    have hne : p.2.cat_counts ≠ [] := by
      have hkey : p.1 ∈ (build_clusters cs).map Prod.fst := List.mem_map_of_mem Prod.fst hp
      rcases build_keys_countP cs [] p.1 (hb ▸ hkey) with h' | h'
      · simp at h'
      · rw [List.countP_eq_length_filter] at h'
        rw [hcats]
        rcases List.exists_cons_of_ne_nil (List.ne_nil_of_length_pos h') with ⟨c0, rest0, hr⟩
        rw [hr]
        simp only [List.foldl_cons]
        exact bump_fold_ne_nil rest0 _ (bump_category_ne_nil _ _)
    subst he
    unfold finalize_cluster
    dsimp only
    rw [hl1, hl2, Prod.mk.eta]
    refine ⟨hc, by rw [hs, hc], ?_⟩
    cases hN : p.2.cat_counts with
    | nil => exact absurd hN hne
    | cons q rest =>
        have hmem : rest.foldl (fun a r => if a.2 < r.2 then r else a) q ∈ q :: rest :=
          foldl_max_mem Prod.snd rest q
        have hmax : ∀ e ∈ q :: rest,
            e.2 ≤ (rest.foldl (fun a r => if a.2 < r.2 then r else a) q).2 :=
          fun e he' => foldl_max_ge Prod.snd rest q e he'
        have hf2 : (q :: rest).find? (fun e =>
            decide (e.1 = (rest.foldl (fun a r => if a.2 < r.2 then r else a) q).1))
            = some (rest.foldl (fun a r => if a.2 < r.2 then r else a) q) :=
          find?_eq_of_mem_nodup hmem (hN ▸ hndcat)
        have htop : cat_table_count (q :: rest)
            ((rest.foldl (fun a r => if a.2 < r.2 then r else a) q).1)
            = (rest.foldl (fun a r => if a.2 < r.2 then r else a) q).2 := by
          simp [cat_table_count, hf2]
        refine ⟨(rest.foldl (fun a r => if a.2 < r.2 then r else a) q).1, rfl, ?_, ?_⟩
        · rw [← htable, hN, htop]
          exact hposall _ (hN ▸ hmem)
        · intro cat
          rw [← htable cat, ← htable _, hN, htop]
          cases hfc : (q :: rest).find? (fun e => decide (e.1 = cat)) with
          | none => simp [cat_table_count, hfc]
          | some e =>
              have he' : e ∈ q :: rest := List.mem_of_find?_eq_some hfc
              have hle := hmax e he'
              simpa [cat_table_count, hfc] using hle
  · have hA : grid_key hotspotA = (28.61, 77.21) := by
      norm_num [grid_key, pyRound, hotspot_grid_size, hotspotA, sampleCritical, Prod.ext_iff]
    have hB : grid_key hotspotB = (28.61, 77.21) := by
      norm_num [grid_key, pyRound, hotspot_grid_size, hotspotB, sampleCritical, Prod.ext_iff]
    have hbuild : build_clusters [hotspotA, hotspotB]
        = [((28.61, 77.21),
            { lat := 28.61, lng := 77.21, count := 2, sev_sum := 1.2,
              cat_counts := [("roads", 1), ("water", 1)] })] := by
      unfold build_clusters
      simp only [List.foldl_cons, List.foldl_nil]
      rw [show add_complaint hotspotA [] = [((28.61, 77.21),
          { lat := 28.61, lng := 77.21, count := 1, sev_sum := 0.5,
            cat_counts := [("roads", 1)] })] from by
        unfold add_complaint
        rw [hA]
        norm_num [hotspotA, sampleCritical]]
      unfold add_complaint
      rw [if_pos (by rw [hB])]
      norm_num [bump_category, hotspotB, sampleCritical]
      decide
    unfold get_hotspots
    rw [hbuild]
    simp only [List.map_cons, List.map_nil]
    norm_num [finalize_cluster, pyRoundTo, pyRound, expectedHotspot]

/-- Witness for C9: the per-entry count clause applied to the concrete
two-complaint table. -/
theorem get_hotspots_spec_witness :
    expectedHotspot.count
      = ([hotspotA, hotspotB]).countP (fun c => decide (grid_key c = (28.61, 77.21))) := by
  have hmem : expectedHotspot ∈ get_hotspots [hotspotA, hotspotB] := by
    rw [get_hotspots_spec.2.2.2]
    exact List.mem_cons_self _ _
  have h := (get_hotspots_spec.2.2.1 [hotspotA, hotspotB] _ hmem).1
  simpa [expectedHotspot] using h

end CivicLens
